import Mathlib

/-!
Shallow embedding of the Gih bakery order-management application
(`src/Confeitaria.py`, `src/core/web_server.py`, `src/core/services.py`)
for checking the natural-language specification against the code.

The database tables touched by the checked behaviours (products, orders,
stock_movements, production_items, audit_logs, users) are modelled as Lean
lists inside a `DBS` record; SQLite AUTOINCREMENT row ids are modelled with
explicit `next*Id` counters that never decrease.  Each checked handler is
translated statement-by-statement from the Python source into a pure
function on `DBS`.
-/

namespace Gih

/-! ### Dates

`delivery_date` is stored as an ISO `YYYY-MM-DD` string and parsed with
`datetime.strptime(d, "%Y-%m-%d")`, giving a midnight timestamp.  We model a
parsed date as a civil (year, month, day) triple and compute the serial day
number with the standard civil-from-days algorithm (all arithmetic on `Nat`,
valid for years >= 1).  Python's `datetime.weekday()` (Monday = 0) and
`datetime` comparison are derived from the serial day number. -/

structure CivilDate where
  year : Nat
  month : Nat
  day : Nat
deriving DecidableEq, Repr

/-- Serial day number of a civil date, counted from 0000-03-01
(Gregorian, proleptic).  Matches the standard days-from-civil algorithm. -/
def civilDays (c : CivilDate) : Nat :=
  let y := if c.month ≤ 2 then c.year - 1 else c.year
  let era := y / 400
  let yoe := y % 400
  let mp := (c.month + 9) % 12
  let doy := (153 * mp + 2) / 5 + c.day - 1
  let doe := yoe * 365 + yoe / 4 - yoe / 100 + doy
  era * 146097 + doe

/-- Python `datetime.weekday()`: Monday = 0 ... Sunday = 6.
1970-01-01 has `civilDays = 719468` and was a Thursday (weekday 3). -/
def pyWeekday (c : CivilDate) : Nat :=
  (civilDays c + 2) % 7

/-- Python `datetime` comparison of two midnight timestamps: chronological
order of the civil dates. -/
def dateLe (a b : CivilDate) : Bool :=
  civilDays a ≤ civilDays b

/-! ### Rows -/

/-- `stock_movements.type` is constrained to 'entrada' / 'saida'. -/
inductive MovType
  | entrada
  | saida
deriving DecidableEq, Repr

/-- A `stock_movements` row (append-only ledger; the AUTOINCREMENT id is
never consulted by the modelled handlers, so it is omitted). -/
structure StockMovement where
  productId : Nat
  type : MovType
  quantity : Int
  reason : String
  orderId : Option Nat
  createdAt : String
deriving DecidableEq, Repr

/-- A `products` row.  `price` is a REAL in SQLite; no modelled handler
computes with it, so it is carried as an opaque integer-valued field. -/
structure Product where
  id : Nat
  name : String
  description : Option String
  size : Option String
  stock : Int
  minStock : Nat
  price : Int
deriving DecidableEq, Repr

/-- An `orders` row.  `product_id` is nullable in practice (the delete
handler guards `if pid_value is not None`), `total` is always written 0.0,
`stock_reserved` is the 0/1 flag. -/
structure Order where
  id : Nat
  orderNumber : Option Nat
  customerId : Nat
  productId : Option Nat
  quantity : Int
  deliveryDate : CivilDate
  total : Int
  status : String
  label : String
  notes : Option String
  stockReserved : Bool
  createdAt : String
deriving DecidableEq, Repr

/-- A `production_items` row. -/
structure ProductionItem where
  id : Nat
  productId : Nat
  quantity : Int
  size : Option String
  notes : Option String
  createdAt : String
deriving DecidableEq, Repr

/-- An `audit_logs` row.  The free-text `details` column is presentational
(built from customer/product names); the modelled handlers carry it as an
uninterpreted string. -/
structure AuditLog where
  entity : String
  entityId : Option Nat
  action : String
  user : String
  details : Option String
  createdAt : String
deriving DecidableEq, Repr

/-- A `users` row.  `password_hash` is TEXT; Python's `if not stored_hash`
treats the empty string like NULL, so we model the column as a `String`
with `""` standing for NULL/empty. -/
structure UserRow where
  id : Nat
  username : String
  passwordHash : String
  role : String
deriving DecidableEq, Repr

/-- The database state visible to the checked handlers.  Lists hold rows in
rowid (= creation) order; `nextOrderId` / `nextProductId` model the
AUTOINCREMENT counters of `orders` / `products` (AUTOINCREMENT never reuses
an id, so the counters survive deletions). -/
structure DBS where
  products : List Product
  orders : List Order
  movements : List StockMovement
  productionItems : List ProductionItem
  audits : List AuditLog
  users : List UserRow
  nextOrderId : Nat
  nextProductId : Nat
deriving DecidableEq, Repr

/-! ### SQL helpers shared by the handlers -/

/-- `SELECT ... FROM products WHERE id=?` (first match). -/
def findProduct (ps : List Product) (pid : Nat) : Option Product :=
  ps.find? (fun p => p.id == pid)

/-- The stock of product `pid`, when the row exists. -/
def stockOf (ps : List Product) (pid : Nat) : Option Int :=
  (findProduct ps pid).map Product.stock

/-- `UPDATE products SET stock = stock + δ WHERE id=?`. -/
def bumpStock (ps : List Product) (pid : Nat) (δ : Int) : List Product :=
  ps.map (fun p => if p.id == pid then { p with stock := p.stock + δ } else p)

/-- `UPDATE products SET stock = ? WHERE id=?`. -/
def setStock (ps : List Product) (pid : Nat) (v : Int) : List Product :=
  ps.map (fun p => if p.id == pid then { p with stock := v } else p)

/-- `INSERT INTO stock_movements(product_id, type, quantity, reason, order_id, created_at)`. -/
def mkMov (pid : Nat) (t : MovType) (q : Int) (reason : String)
    (oid : Option Nat) (now : String) : StockMovement :=
  { productId := pid, type := t, quantity := q, reason := reason,
    orderId := oid, createdAt := now }

/-- `audit_log(entity, entity_id, action, ...)`: append one audit row
(the handler swallows logging failures; the success path appends). -/
def auditRow (entity : String) (entityId : Option Nat) (action : String)
    (user : String) (details : Option String) (now : String) : AuditLog :=
  { entity := entity, entityId := entityId, action := action,
    user := user, details := details, createdAt := now }

/-! ### `OrdersPage.add` (src/Confeitaria.py:8010-8087)

One order row per product in the dialog.  The handler inserts the row with
`order_number = NULL`, immediately sets `order_number = id`, decrements the
product's stock and logs a 'saida' movement only when
`delivery_date <= today` (both at midnight), and appends an audit row. -/

inductive AddOrderResult
  | noProducts
  | mondayRejected
  | created (orderIds : List Nat)
deriving DecidableEq, Repr

/-- Loop body of `OrdersPage.add`: create one order for product `prodId`
with quantity `qty`. -/
def addOneOrder (custId : Nat) (delivery : CivilDate) (status lbl : String)
    (notes : Option String) (shouldReserve : Bool) (now : String)
    (acc : DBS × List Nat) (item : Nat × Int) : DBS × List Nat :=
  let db := acc.1
  let oid := db.nextOrderId
  let row : Order :=
    { id := oid, orderNumber := some oid, customerId := custId,
      productId := some item.1, quantity := item.2, deliveryDate := delivery,
      total := 0, status := status, label := lbl, notes := notes,
      stockReserved := shouldReserve, createdAt := now }
  let db := { db with orders := db.orders ++ [row], nextOrderId := oid + 1 }
  let db :=
    if shouldReserve then
      { db with
        products := bumpStock db.products item.1 (-item.2),
        movements := db.movements ++
          [mkMov item.1 .saida item.2 "Pedido" (some oid) now] }
    else db
  let db :=
    { db with audits := db.audits ++
        [auditRow "order" (some oid) "create" "user"
          (some ("cust=" ++ toString custId ++ ",prod=" ++ toString item.1 ++
                 ",qty=" ++ toString item.2 ++ ",total=0.0,reserved=" ++
                 (if shouldReserve then "True" else "False"))) now] }
  (db, acc.2 ++ [oid])

/-- `OrdersPage.add`: `items` is the `(product_id, quantity)` list from the
dialog; `today` is `datetime.now()` truncated to midnight. -/
def orders_add (db : DBS) (custId : Nat) (items : List (Nat × Int))
    (delivery : CivilDate) (status lbl : String) (notes : Option String)
    (today : CivilDate) (now : String) : DBS × AddOrderResult :=
  if items.isEmpty then (db, .noProducts)
  else if pyWeekday delivery == 0 then (db, .mondayRejected)
  else
    let shouldReserve := dateLe delivery today
    let r := items.foldl (addOneOrder custId delivery status lbl notes shouldReserve now) (db, [])
    (r.1, .created r.2)

/-- `CustomersPage._start_order_for_customer` (src/Confeitaria.py:7387-7461):
same handler shape as `OrdersPage.add`, but multi-product batches get a
`LOTE:<n> itens | <notes>` marker in `notes`. -/
def customers_start_order (db : DBS) (custId : Nat) (items : List (Nat × Int))
    (delivery : CivilDate) (status lbl : String) (notes : Option String)
    (today : CivilDate) (now : String) : DBS × AddOrderResult :=
  if items.isEmpty then (db, .noProducts)
  else if pyWeekday delivery == 0 then (db, .mondayRejected)
  else
    let notesMarked :=
      if items.length > 1 then
        some (("LOTE:" ++ toString items.length ++ " itens | " ++
               (notes.getD "")).trim)
      else notes
    let shouldReserve := dateLe delivery today
    let r := items.foldl (addOneOrder custId delivery status lbl notesMarked shouldReserve now) (db, [])
    (r.1, .created r.2)

/-! ### `OrdersPage.edit` (src/Confeitaria.py:8089-8228) -/

inductive EditOrderResult
  | notFound
  | errored
  | edited
deriving DecidableEq, Repr

/-- `OrdersPage.edit` for order `oid` with the dialog's new values.
`editDetails` stands for the free-text change summary the handler builds
from old/new customer and product names (presentational, uninspected).
An order whose `product_id` is NULL makes `int(data["product_id"])` raise
before any write, so the state is returned unchanged. -/
def orders_edit (db : DBS) (oid : Nat) (custId prodId : Nat) (qtyNew : Int)
    (delivery : CivilDate) (status lbl : String) (notes : Option String)
    (editDetails : Option String) (now : String) : DBS × EditOrderResult :=
  match db.orders.find? (fun o => o.id == oid) with
  | none => (db, .notFound)
  | some old =>
    match old.productId with
    | none => (db, .errored)
    | some oldPid =>
      let db : DBS :=
        if oldPid == prodId then
          let delta := qtyNew - old.quantity
          if delta ≠ 0 then
            { db with
              products := bumpStock db.products prodId (-delta),
              movements := db.movements ++
                [mkMov prodId (if delta > 0 then .saida else .entrada)
                  |delta| "Ajuste pedido" (some oid) now] }
          else db
        else
          let db :=
            { db with
              products := bumpStock db.products oldPid old.quantity,
              movements := db.movements ++
                [mkMov oldPid .entrada old.quantity "Ajuste pedido" (some oid) now] }
          { db with
            products := bumpStock db.products prodId (-qtyNew),
            movements := db.movements ++
              [mkMov prodId .saida qtyNew "Ajuste pedido" (some oid) now] }
      let db : DBS :=
        { db with orders := db.orders.map (fun o =>
            if o.id == oid then
              { o with customerId := custId, productId := some prodId,
                       quantity := qtyNew, deliveryDate := delivery,
                       total := 0, status := status, label := lbl,
                       notes := notes }
            else o) }
      ({ db with audits := db.audits ++
          [auditRow "order" (some oid) "update" "user" editDetails now] },
       .edited)

/-! ### `OrdersPage.delete`, loop body for one order id
(src/Confeitaria.py:8255-8287)

Restores the product's stock whenever the order has a non-NULL
`product_id` (the `stock_reserved` flag is not consulted), then deletes
the order's stock movements and audit rows, deletes the order, and logs
the deletion as a fresh audit row. -/

def orders_delete (db : DBS) (oid : Nat) (user now : String) : DBS :=
  let db :=
    match db.orders.find? (fun o => o.id == oid) with
    | some o =>
      match o.productId with
      | some pid => { db with products := bumpStock db.products pid o.quantity }
      | none => db
    | none => db
  { db with
    movements := db.movements.filter (fun m => m.orderId ≠ some oid),
    audits := db.audits.filter
        (fun a => ¬(a.entity = "order" ∧ a.entityId = some oid)) ++
      [auditRow "order" (some oid) "delete" user none now],
    orders := db.orders.filter (fun o => o.id ≠ oid) }

/-! ### `ProductsPage.delete` (src/Confeitaria.py:3286-3314) -/

inductive DeleteProductResult
  | blocked
  | deleted
deriving DecidableEq, Repr

/-- `ProductsPage.delete`: refuse while any order references the product
(`SELECT COUNT(*) FROM orders WHERE product_id=?`); otherwise delete the
product's stock movements, production items and the product row, then log
the deletion. -/
def products_delete (db : DBS) (pid : Nat) (user now : String) :
    DBS × DeleteProductResult :=
  let c := (db.orders.filter (fun o => o.productId == some pid)).length
  if c > 0 then (db, .blocked)
  else
    ({ db with
        movements := db.movements.filter (fun m => m.productId ≠ pid),
        productionItems := db.productionItems.filter (fun i => i.productId ≠ pid),
        products := db.products.filter (fun p => p.id ≠ pid),
        audits := db.audits ++ [auditRow "product" (some pid) "delete" user none now] },
     .deleted)

/-! ### `ProductsPage.add` (src/Confeitaria.py:3141-3199)

`ProductDialog.get_values` returns the sizes already normalised: the
non-empty trimmed size entries joined with `", "`, or `None` when there are
none; `stock` comes from a `QSpinBox` with range 0..1000000. -/

/-- Python `str.split(",")` over the character list: split at every comma
(no merging of adjacent separators). -/
def splitCommaChars : List Char → List Char → List (List Char)
  | [], acc => [acc.reverse]
  | c :: rest, acc =>
    if c = ',' then acc.reverse :: splitCommaChars rest []
    else splitCommaChars rest (c :: acc)

/-- Python `str.strip()`: drop whitespace from both ends. -/
def pyStrip (s : String) : String :=
  ⟨(((s.data.dropWhile Char.isWhitespace).reverse.dropWhile
      Char.isWhitespace).reverse)⟩

/-- `[s.strip() for s in size.split(",") if s.strip()] if size else []`. -/
def splitSizes (size : Option String) : List String :=
  match size with
  | none => []
  | some s =>
    if s = "" then []
    else (((splitCommaChars s.data []).map (fun cs => pyStrip ⟨cs⟩)).filter
      (fun t => t ≠ ""))

inductive AddProductResult
  | nameRequired
  | multi (n : Nat)
  | single
deriving DecidableEq, Repr

/-- Loop body of the multi-size branch of `ProductsPage.add`: insert one
product named `"<base> <size>cm"`, seed an initial 'entrada' movement when
`stock > 0`, and log the creation. -/
def addOneSizedProduct (name : String) (desc : Option String)
    (stock : Nat) (minStock : Nat) (price : Int) (user now : String)
    (db : DBS) (sz : String) : DBS :=
  let pname := name ++ " " ++ sz ++ "cm"
  let pid := db.nextProductId
  let db : DBS :=
    { db with
      products := db.products ++
        [{ id := pid, name := pname, description := desc, size := some sz,
           stock := (stock : Int), minStock := minStock, price := price }],
      nextProductId := pid + 1 }
  let db : DBS :=
    if stock > 0 then
      { db with movements := db.movements ++
          [mkMov pid .entrada (stock : Int) "Cadastro inicial" none now] }
    else db
  { db with audits := db.audits ++
      [auditRow "product" (some pid) "create" user
        (some ("name=" ++ pname ++ ",stock=" ++ toString stock ++
               ",price=" ++ toString price)) now] }

/-- `ProductsPage.add`: with more than one size entry, one product row per
size (named `"<base> <size>cm"`); otherwise a single row keeping the base
name and the raw size string. -/
def products_add (db : DBS) (name : String) (desc : Option String)
    (size : Option String) (stock : Nat) (minStock : Nat) (price : Int)
    (user now : String) : DBS × AddProductResult :=
  if name = "" then (db, .nameRequired)
  else
    let sizes := splitSizes size
    if sizes.length > 1 then
      (sizes.foldl (addOneSizedProduct name desc stock minStock price user now) db,
       .multi sizes.length)
    else
      let pid := db.nextProductId
      let db : DBS :=
        { db with
          products := db.products ++
            [{ id := pid, name := name, description := desc, size := size,
               stock := (stock : Int), minStock := minStock, price := price }],
          nextProductId := pid + 1 }
      let db : DBS :=
        if stock > 0 then
          { db with movements := db.movements ++
              [mkMov pid .entrada (stock : Int) "Cadastro inicial" none now] }
        else db
      ({ db with audits := db.audits ++
          [auditRow "product" (some pid) "create" user
            (some ("name=" ++ name ++ ",stock=" ++ toString stock)) now] },
       .single)

/-! ### `AuthService.authenticate` (src/core/services.py:26-64)

The bcrypt primitives and SHA-256 are modelled as parameters: the handler
is pure control flow around them.  `checkpw pw h` models
`bcrypt.checkpw(pw, h)`, `hashpw pw` models
`bcrypt.hashpw(pw, bcrypt.gensalt())` for the one call the handler makes,
`sha256 pw` models `hashlib.sha256(pw).hexdigest()`, and
`bcryptAvailable` models whether `import bcrypt` succeeded. -/

structure AuthEnv where
  bcryptAvailable : Bool
  checkpw : String → String → Bool
  hashpw : String → String
  sha256 : String → String

/-- `stored_hash.startswith('$2')`. -/
def isBcryptHash (h : String) : Bool :=
  match h.data with
  | '$' :: '2' :: _ => true
  | _ => false

/-- The `User` record `authenticate` returns (it carries the *old* stored
hash even after an upgrade). -/
structure AuthUser where
  id : Nat
  username : String
  passwordHash : String
  role : String
deriving DecidableEq, Repr

/-- `AuthService.authenticate`: returns the authenticated user (or none)
together with the possibly-updated users table (the SHA-256 → bcrypt
upgrade rewrites `password_hash` on success when bcrypt is available). -/
def authenticate (env : AuthEnv) (users : List UserRow)
    (username password : String) : Option AuthUser × List UserRow :=
  match users.find? (fun u => u.username == username) with
  | none => (none, users)
  | some u =>
    if u.passwordHash = "" then (none, users)
    else if env.bcryptAvailable && isBcryptHash u.passwordHash then
      if env.checkpw password u.passwordHash then
        (some { id := u.id, username := u.username,
                passwordHash := u.passwordHash, role := u.role }, users)
      else (none, users)
    else
      if env.sha256 password = u.passwordHash then
        let users' :=
          if env.bcryptAvailable then
            users.map (fun v =>
              if v.id == u.id then { v with passwordHash := env.hashpw password }
              else v)
          else users
        (some { id := u.id, username := u.username,
                passwordHash := u.passwordHash, role := u.role }, users')
      else (none, users)

/-- The claim's notion of "the supplied password matches the stored hash":
bcrypt verification for bcrypt-format hashes (they start with `$2`),
SHA-256 hex-digest comparison otherwise. -/
def hashMatches (env : AuthEnv) (password h : String) : Bool :=
  if isBcryptHash h then env.checkpw password h else env.sha256 password == h

/-! ### `POST /api/production/complete` (src/core/web_server.py:653-729)

The handler opens one SQLite connection, performs all writes inside the
implicit transaction, and calls `conn.commit()` exactly once at the end; any
exception is caught and answered with a 500 *without* committing, so the
uncommitted writes are rolled back when the connection is discarded.  To
check the all-or-nothing property we inject faults through an oracle
`fails : Nat → Bool` over the ordinal of each fallible statement; the
persisted state only becomes the working copy if the final commit runs. -/

inductive CompleteResult
  | ok (itemsCount : Nat) (totalQuantity : Int)
  | errEmpty
  | errException
deriving DecidableEq, Repr

/-- `SELECT pi.id, pi.product_id, pi.quantity, pi.size, p.name FROM
production_items pi JOIN products p ON pi.product_id = p.id`: production
items paired with their product row (items without a product are dropped
by the inner join). -/
def joinItems (db : DBS) : List (ProductionItem × Product) :=
  db.productionItems.filterMap
    (fun it => (findProduct db.products it.productId).map (fun p => (it, p)))

/-- The per-item loop: `UPDATE products SET stock = stock + ?` then
`INSERT INTO stock_movements ... 'entrada' ... 'Produção concluída'`,
on the working (uncommitted) state.  `k` numbers the fallible statements;
`none` means some statement raised. -/
def cpLoop (now : String) (fails : Nat → Bool) :
    List (ProductionItem × Product) → Nat → DBS → Option (DBS × Nat)
  | [], k, work => some (work, k)
  | (it, _) :: rest, k, work =>
    if fails k then none
    else
      let work : DBS :=
        { work with products := bumpStock work.products it.productId it.quantity }
      if fails (k + 1) then none
      else
        let work : DBS :=
          { work with movements := work.movements ++
              [mkMov it.productId .entrada it.quantity "Produção concluída" none now] }
        cpLoop now fails rest (k + 2) work

/-- `complete_production`: the returned `DBS` is the *committed* state —
the original `db` unless the single `conn.commit()` at the end is reached. -/
def complete_production (db : DBS) (now : String) (fails : Nat → Bool) :
    DBS × CompleteResult :=
  if fails 0 then (db, .errException)
  else
    let items := joinItems db
    if items.isEmpty then (db, .errEmpty)
    else
      match cpLoop now fails items 1 db with
      | none => (db, .errException)
      | some (work, k) =>
        if fails k then (db, .errException)
        else
          let work : DBS := { work with productionItems := [] }
          if fails (k + 1) then (db, .errException)
          else
            (work, .ok items.length
              ((items.map (fun ip => ip.1.quantity)).foldl (· + ·) 0))

/-- Total production quantity pending for product `pid`. -/
def producedQty (items : List ProductionItem) (pid : Nat) : Int :=
  ((items.filter (fun it => it.productId == pid)).map ProductionItem.quantity).sum

/-! ### `POST /api/products/<id>/adjust` (src/core/web_server.py:733-798) -/

inductive AdjustResult
  | notFound
  | ok (newQuantity : Int)
deriving DecidableEq, Repr

/-- `adjust_product`: look the product up; missing → 404 with no change;
otherwise `new_quantity = max(0, stock + change)` is stored
(`# Não permite negativo`). -/
def adjust_product (db : DBS) (pid : Nat) (change : Int) : DBS × AdjustResult :=
  match findProduct db.products pid with
  | none => (db, .notFound)
  | some p =>
    let newQuantity := max 0 (p.stock + change)
    ({ db with products := setStock db.products pid newQuantity }, .ok newQuantity)

/-! ### `order_number` assignment (claim C9)

Only two sites ever write `order_number`:
* `ExtendedDatabase._init_db` (src/Confeitaria.py:650-657) backfills rows
  whose `order_number` is NULL/'' with `MAX(order_number) + i`, `i = 1..`
  in id order, at every startup;
* the two order-creation handlers insert with `order_number = NULL` and at
  once run `UPDATE orders SET order_number = id` (id is AUTOINCREMENT).

We model just the `(id, order_number)` projection of the orders table, in
creation (= id) order, with the AUTOINCREMENT counter, plus a ghost log of
every number in the order it was assigned. -/

structure ONState where
  rows : List (Nat × Option Nat)
  nextId : Nat
deriving DecidableEq, Repr

/-- `SELECT MAX(order_number) FROM orders` (`or 0` in the handler). -/
def maxAssigned (rows : List (Nat × Option Nat)) : Nat :=
  (rows.filterMap Prod.snd).foldl max 0

/-- The backfill loop: rows with NULL `order_number` (in id order) receive
`maxnum + i`, `i = 1, 2, ...`; also returns the assigned numbers in
assignment order. -/
def backfillGo (maxnum : Nat) : Nat → List (Nat × Option Nat) →
    List (Nat × Option Nat) × List Nat
  | _, [] => ([], [])
  | i, (oid, none) :: rest =>
    let r := backfillGo maxnum (i + 1) rest
    ((oid, some (maxnum + i)) :: r.1, (maxnum + i) :: r.2)
  | i, row :: rest =>
    let r := backfillGo maxnum i rest
    (row :: r.1, r.2)

/-- The `_init_db` backfill step. -/
def migrate_backfill (s : ONState) : ONState × List Nat :=
  let r := backfillGo (maxAssigned s.rows) 1 s.rows
  ({ s with rows := r.1 }, r.2)

/-- Order creation as both handlers perform it: insert (AUTOINCREMENT id),
then `UPDATE orders SET order_number = id`. -/
def onCreate (s : ONState) : ONState :=
  { rows := s.rows ++ [(s.nextId, some s.nextId)], nextId := s.nextId + 1 }

/-- `DELETE FROM orders WHERE id=?` (AUTOINCREMENT: `nextId` is kept). -/
def onRemove (s : ONState) (oid : Nat) : ONState :=
  { s with rows := s.rows.filter (fun r => r.1 ≠ oid) }

/-- The operations that touch the orders table across the application's
lifetime: creating an order, deleting one, and re-running the startup
migration. -/
inductive OrderOp
  | create
  | remove (oid : Nat)
  | migrate
deriving DecidableEq, Repr

/-- Run a sequence of operations, extending the ghost assignment log. -/
def runOrderOps : ONState × List Nat → List OrderOp → ONState × List Nat
  | acc, [] => acc
  | (s, log), OrderOp.create :: ops =>
    runOrderOps (onCreate s, log ++ [s.nextId]) ops
  | (s, log), OrderOp.remove oid :: ops =>
    runOrderOps (onRemove s oid, log) ops
  | (s, log), OrderOp.migrate :: ops =>
    let r := migrate_backfill s
    runOrderOps (r.1, log ++ r.2) ops

/-- A pre-migration orders table: every `order_number` is NULL, rowids are
positive, strictly increasing in creation order, and below the
AUTOINCREMENT counter. -/
def PreMigration (s : ONState) : Prop :=
  (∀ r ∈ s.rows, r.2 = none) ∧
  List.Pairwise (fun a b => a.1 < b.1) s.rows ∧
  (∀ r ∈ s.rows, 1 ≤ r.1 ∧ r.1 < s.nextId)

/-! ### Specification-side descriptions used in theorem statements -/

/-- The product rows the multi-size branch of `ProductsPage.add` inserts:
one per size entry, named with the `cm` suffix, ids counting up from
`pid`. -/
def sizedRows (name : String) (desc : Option String) (stock minStock : Nat)
    (price : Int) : Nat → List String → List Product
  | _, [] => []
  | pid, sz :: rest =>
    { id := pid, name := name ++ " " ++ sz ++ "cm", description := desc,
      size := some sz, stock := (stock : Int), minStock := minStock,
      price := price } ::
      sizedRows name desc stock minStock price (pid + 1) rest

/-- The seeding movements of the multi-size branch: one 'entrada' per
inserted product. -/
def sizedMovs (now : String) (stock : Nat) : Nat → List String → List StockMovement
  | _, [] => []
  | pid, _ :: rest =>
    mkMov pid .entrada (stock : Int) "Cadastro inicial" none now ::
      sizedMovs now stock (pid + 1) rest

/-- An empty database, used for concrete witnesses and counterexamples. -/
def exampleDB : DBS :=
  { products := [], orders := [], movements := [], productionItems := [],
    audits := [], users := [], nextOrderId := 1, nextProductId := 1 }

/-- The invariant maintained by every operation on the orders table after
the first migration: rows are ordered by id (creation order), every row is
numbered with a number no larger than its id, numbers grow strictly with
ids, ids stay below the AUTOINCREMENT counter, and the ghost log of
assigned numbers is strictly increasing and below the counter. -/
def OrderNumberInv (s : ONState) (log : List Nat) : Prop :=
  (∀ r ∈ s.rows, ∃ n, r.2 = some n ∧ n ≤ r.1) ∧
  List.Pairwise (fun a b => a.1 < b.1) s.rows ∧
  List.Pairwise (· < ·) (s.rows.filterMap Prod.snd) ∧
  (∀ r ∈ s.rows, r.1 < s.nextId) ∧
  List.Pairwise (· < ·) log ∧
  (∀ x ∈ log, x < s.nextId)

/-- A concrete authentication environment with the bcrypt module missing,
a stored bcrypt hash, and a password that bcrypt would accept. -/
def counterexampleAuthEnv : AuthEnv :=
  { bcryptAvailable := false,
    checkpw := fun _ _ => true,
    hashpw := fun pw => pw,
    sha256 := fun pw => String.append "sha256:" pw }

def counterexampleUsers : List UserRow :=
  [{ id := 1, username := "admin", passwordHash := "$2b$12$hash", role := "admin" }]

/-- A concrete authentication environment with bcrypt available and a
deterministic stand-in for the hash primitives. -/
def witnessAuthEnv : AuthEnv :=
  { bcryptAvailable := true,
    checkpw := fun pw h => h == String.append "bc:" pw,
    hashpw := fun pw => String.append "bc:" pw,
    sha256 := fun pw => String.append "sha256:" pw }

def witnessUsers : List UserRow :=
  [{ id := 1, username := "admin", passwordHash := "sha256:pw", role := "admin" }]

/-! ### Helper lemmas -/

theorem find?_map_of_pred {α : Type} (g : α → α) (p : α → Bool)
    (hp : ∀ a, p (g a) = p a) :
    ∀ l : List α, (l.map g).find? p = (l.find? p).map g := by
  intro l
  induction l with
  | nil => rfl
  | cons a l ih =>
    simp only [List.map_cons, List.find?_cons, hp a]
    cases h : p a <;> simp [ih]

theorem stockOf_bumpStock (ps : List Product) (pid : Nat) (δ : Int) (pid' : Nat) :
    stockOf (bumpStock ps pid δ) pid' =
      (stockOf ps pid').map (fun s => if pid' = pid then s + δ else s) := by
  unfold stockOf findProduct bumpStock
  rw [find?_map_of_pred]
  · cases h : ps.find? (fun p => p.id == pid') with
    | none => simp
    | some p0 =>
      have hid : (p0.id == pid') = true := by
        have := List.find?_some h
        simpa using this
      have hid' : p0.id = pid' := by simpa using hid
      by_cases hc : pid' = pid
      · simp [hid', hc]
      · simp [hid', hc]
  · intro a
    by_cases h : a.id = pid <;> simp [h]

theorem stockOf_setStock (ps : List Product) (pid : Nat) (v : Int) (pid' : Nat) :
    stockOf (setStock ps pid v) pid' =
      (stockOf ps pid').map (fun s => if pid' = pid then v else s) := by
  unfold stockOf findProduct setStock
  rw [find?_map_of_pred]
  · cases h : ps.find? (fun p => p.id == pid') with
    | none => simp
    | some p0 =>
      have hid : (p0.id == pid') = true := by
        have := List.find?_some h
        simpa using this
      have hid' : p0.id = pid' := by simpa using hid
      by_cases hc : pid' = pid
      · simp [hid', hc]
      · simp [hid', hc]
  · intro a
    by_cases h : a.id = pid <;> simp [h]

theorem foldl_addOneSizedProduct (name : String) (desc : Option String)
    (stock minStock : Nat) (price : Int) (user now : String) :
    ∀ (sizes : List String) (db : DBS),
      (sizes.foldl (addOneSizedProduct name desc stock minStock price user now) db).products =
        db.products ++ sizedRows name desc stock minStock price db.nextProductId sizes ∧
      (sizes.foldl (addOneSizedProduct name desc stock minStock price user now) db).movements =
        db.movements ++
          (if 0 < stock then sizedMovs now stock db.nextProductId sizes else []) ∧
      (sizes.foldl (addOneSizedProduct name desc stock minStock price user now) db).orders =
        db.orders ∧
      (sizes.foldl (addOneSizedProduct name desc stock minStock price user now) db).productionItems =
        db.productionItems ∧
      (sizes.foldl (addOneSizedProduct name desc stock minStock price user now) db).nextProductId =
        db.nextProductId + sizes.length := by
  intro sizes
  induction sizes with
  | nil => intro db; simp [sizedRows, sizedMovs]
  | cons sz rest ih =>
    intro db
    rw [List.foldl_cons]
    obtain ⟨h1, h2, h3, h4, h5⟩ :=
      ih (addOneSizedProduct name desc stock minStock price user now db sz)
    by_cases hs : 0 < stock
    · constructor
      · rw [h1]
        simp [addOneSizedProduct, hs, sizedRows, Nat.add_comm, Nat.add_assoc]
      constructor
      · rw [h2]
        simp [addOneSizedProduct, hs, sizedMovs]
      refine ⟨?_, ?_, ?_⟩
      · rw [h3]; simp [addOneSizedProduct, hs]
      · rw [h4]; simp [addOneSizedProduct, hs]
      · rw [h5]; simp [addOneSizedProduct, hs]; omega
    · constructor
      · rw [h1]
        simp [addOneSizedProduct, hs, sizedRows]
      constructor
      · rw [h2]
        simp [addOneSizedProduct, hs, sizedMovs]
      refine ⟨?_, ?_, ?_⟩
      · rw [h3]; simp [addOneSizedProduct, hs]
      · rw [h4]; simp [addOneSizedProduct, hs]
      · rw [h5]; simp [addOneSizedProduct, hs]; omega

theorem sizedRows_length (name : String) (desc : Option String)
    (stock minStock : Nat) (price : Int) :
    ∀ (sizes : List String) (pid : Nat),
      (sizedRows name desc stock minStock price pid sizes).length = sizes.length := by
  intro sizes
  induction sizes with
  | nil => intro pid; rfl
  | cons sz rest ih => intro pid; simp [sizedRows, ih]


theorem filterMap_pair_fst (ps : List Product) :
    ∀ (its : List ProductionItem),
      (∀ it ∈ its, (findProduct ps it.productId).isSome) →
      (its.filterMap
          (fun it => (findProduct ps it.productId).map (fun p => (it, p)))).map
        Prod.fst = its := by
  intro its
  induction its with
  | nil => intro _; rfl
  | cons it rest ih =>
    intro h
    have h1 := h it (by simp)
    cases hf : findProduct ps it.productId with
    | none => rw [hf] at h1; simp at h1
    | some p =>
      have ih' := ih (fun x hx => h x (by simp [hx]))
      simp [List.filterMap_cons, hf, ih']

theorem joinItems_map_fst (db : DBS)
    (hwf : ∀ it ∈ db.productionItems, (findProduct db.products it.productId).isSome) :
    (joinItems db).map Prod.fst = db.productionItems :=
  filterMap_pair_fst db.products db.productionItems hwf

theorem cpLoop_ok (now : String) (fails : Nat → Bool) :
    ∀ (items : List (ProductionItem × Product)) (k : Nat) (work work' : DBS) (k' : Nat),
      cpLoop now fails items k work = some (work', k') →
      work'.products =
        items.foldl (fun ps ip => bumpStock ps ip.1.productId ip.1.quantity)
          work.products ∧
      work'.movements = work.movements ++
        items.map (fun ip =>
          mkMov ip.1.productId .entrada ip.1.quantity "Produção concluída" none now) ∧
      work'.productionItems = work.productionItems ∧
      work'.orders = work.orders ∧
      work'.audits = work.audits ∧
      work'.users = work.users ∧
      work'.nextOrderId = work.nextOrderId ∧
      work'.nextProductId = work.nextProductId := by
  intro items
  induction items with
  | nil =>
    intro k work work' k' h
    simp only [cpLoop, Option.some.injEq, Prod.mk.injEq] at h
    obtain ⟨hw, hk⟩ := h
    subst hw
    simp
  | cons ip rest ih =>
    intro k work work' k' h
    unfold cpLoop at h
    by_cases h0 : fails k
    · simp [h0] at h
    · by_cases h1 : fails (k + 1)
      · simp [h0, h1] at h
      · simp only [h0, h1, if_false, Bool.false_eq_true] at h
        obtain ⟨hp, hm, hpi, ho, ha, hu, hn1, hn2⟩ := ih _ _ _ _ h
        refine ⟨?_, ?_, by simpa using hpi, by simpa using ho,
          by simpa using ha, by simpa using hu, by simpa using hn1,
          by simpa using hn2⟩
        · rw [hp]
          simp
        · rw [hm]
          simp

theorem stockOf_bumpFold :
    ∀ (its : List ProductionItem) (ps : List Product) (pid : Nat),
      stockOf (its.foldl (fun acc it => bumpStock acc it.productId it.quantity) ps) pid =
        (stockOf ps pid).map (fun s => s + producedQty its pid) := by
  intro its
  induction its with
  | nil =>
    intro ps pid
    simp [producedQty]
  | cons it rest ih =>
    intro ps pid
    rw [List.foldl_cons, ih]
    rw [stockOf_bumpStock]
    by_cases hc : pid = it.productId
    · cases h : stockOf ps pid <;>
        simp [producedQty, hc, add_assoc, List.filter_cons]
    · have : ¬(it.productId == pid) = true := by
        simp
        exact fun e => hc e.symm
      cases h : stockOf ps pid <;>
        simp [producedQty, hc, List.filter_cons, this]

theorem cpLoop_nofault (now : String) (fails : Nat → Bool)
    (hf : ∀ k, fails k = false) :
    ∀ (items : List (ProductionItem × Product)) (k : Nat) (work : DBS),
      ∃ w k', cpLoop now fails items k work = some (w, k') := by
  intro items
  induction items with
  | nil =>
    intro k work
    exact ⟨work, k, rfl⟩
  | cons ip rest ih =>
    intro k work
    unfold cpLoop
    simp only [hf, Bool.false_eq_true, if_false]
    exact ih _ _

theorem backfillGo_all_some (m : Nat) :
    ∀ (rows : List (Nat × Option Nat)) (i : Nat),
      (∀ r ∈ rows, r.2.isSome) →
      backfillGo m i rows = (rows, []) := by
  intro rows
  induction rows with
  | nil => intro i _; rfl
  | cons r rest ih =>
    intro i h
    match r, h r (by simp) with
    | (oid, some n), _ =>
      unfold backfillGo
      rw [ih i (fun x hx => h x (by simp [hx]))]

theorem onCreate_inv (s : ONState) (log : List Nat)
    (h : OrderNumberInv s log) :
    OrderNumberInv (onCreate s) (log ++ [s.nextId]) := by
  obtain ⟨h1, h2, h3, h4, h5, h6⟩ := h
  unfold OrderNumberInv onCreate
  have hnum : ∀ x ∈ s.rows.filterMap Prod.snd, x < s.nextId := by
    intro x hx
    obtain ⟨r, hr, hx2⟩ := List.mem_filterMap.mp hx
    obtain ⟨n, hn, hle⟩ := h1 r hr
    rw [hn] at hx2
    cases hx2
    exact lt_of_le_of_lt hle (h4 r hr)
  refine ⟨?_, ?_, ?_, ?_, ?_, ?_⟩
  · intro r hr
    rcases List.mem_append.mp hr with h | h
    · exact h1 r h
    · simp at h
      exact ⟨s.nextId, by simp [h], by simp [h]⟩
  · rw [List.pairwise_append]
    refine ⟨h2, by simp, ?_⟩
    intro a ha b hb
    simp at hb
    rw [hb]
    exact h4 a ha
  · simp only [List.filterMap_append]
    rw [List.pairwise_append]
    refine ⟨h3, by simp, ?_⟩
    intro a ha b hb
    simp at hb
    rw [hb]
    exact hnum a ha
  · intro r hr
    rcases List.mem_append.mp hr with h | h
    · exact Nat.lt_succ_of_lt (h4 r h)
    · simp at h
      simp [h]

  · rw [List.pairwise_append]
    refine ⟨h5, by simp, ?_⟩
    intro a ha b hb
    simp at hb
    rw [hb]
    exact h6 a ha
  · intro x hx
    rcases List.mem_append.mp hx with h | h
    · exact Nat.lt_succ_of_lt (h6 x h)
    · simp at h
      simp [h]

theorem onRemove_inv (s : ONState) (log : List Nat) (oid : Nat)
    (h : OrderNumberInv s log) :
    OrderNumberInv (onRemove s oid) log := by
  obtain ⟨h1, h2, h3, h4, h5, h6⟩ := h
  have hsub : List.Sublist (s.rows.filter (fun r => r.1 ≠ oid)) s.rows :=
    List.filter_sublist _
  refine ⟨?_, ?_, ?_, ?_, h5, h6⟩
  · intro r hr
    exact h1 r (hsub.mem hr)
  · exact h2.sublist hsub
  · exact h3.sublist (hsub.filterMap Prod.snd)
  · intro r hr
    exact h4 r (hsub.mem hr)

theorem backfillGo_all_none :
    ∀ (rows : List (Nat × Option Nat)) (i : Nat),
      (∀ r ∈ rows, r.2 = none) →
      List.Pairwise (fun a b => a.1 < b.1) rows →
      (∀ r ∈ rows, i ≤ r.1) →
      (backfillGo 0 i rows).1.map Prod.fst = rows.map Prod.fst ∧
      (∀ x ∈ (backfillGo 0 i rows).1, ∃ n, x.2 = some n ∧ n ≤ x.1) ∧
      List.Pairwise (fun a b => a.1 < b.1) (backfillGo 0 i rows).1 ∧
      (backfillGo 0 i rows).1.filterMap Prod.snd = (backfillGo 0 i rows).2 ∧
      List.Pairwise (· < ·) (backfillGo 0 i rows).2 ∧
      (∀ x ∈ (backfillGo 0 i rows).2, i ≤ x ∧ ∃ r ∈ rows, x ≤ r.1) := by
  intro rows
  induction rows with
  | nil =>
    intro i _ _ _
    refine ⟨rfl, by simp [backfillGo], by simp [backfillGo],
      by simp [backfillGo], by simp [backfillGo], by simp [backfillGo]⟩
  | cons r rest ih =>
    intro i hnone hpw hge
    obtain ⟨oid, o2⟩ := r
    have ho2 : o2 = none := hnone (oid, o2) (by simp)
    subst ho2
    have hoid : i ≤ oid := hge (oid, none) (by simp)
    have hrest_ge : ∀ x ∈ rest, i + 1 ≤ x.1 := by
      intro x hx
      have := (List.pairwise_cons.mp hpw).1 x hx
      omega
    obtain ⟨ih1, ih2, ih3, ih4, ih5, ih6⟩ :=
      ih (i + 1) (fun x hx => hnone x (by simp [hx]))
        (List.pairwise_cons.mp hpw).2 hrest_ge
    have hstep : backfillGo 0 i ((oid, none) :: rest) =
        ((oid, some (0 + i)) :: (backfillGo 0 (i + 1) rest).1,
          (0 + i) :: (backfillGo 0 (i + 1) rest).2) := rfl
    rw [hstep]
    simp only [Nat.zero_add]
    refine ⟨?_, ?_, ?_, ?_, ?_, ?_⟩
    · simp [ih1]
    · intro x hx
      rcases List.mem_cons.mp hx with h | h
      · exact ⟨i, by simp [h], by simp [h, hoid]⟩
      · exact ih2 x h
    · rw [List.pairwise_cons]
      refine ⟨?_, ih3⟩
      intro x hx
      have hx1 : x.1 ∈ (backfillGo 0 (i + 1) rest).1.map Prod.fst :=
        List.mem_map_of_mem Prod.fst hx
      rw [ih1] at hx1
      obtain ⟨z, hz, hz1⟩ := List.mem_map.mp hx1
      rw [← hz1]
      exact (List.pairwise_cons.mp hpw).1 z hz
    · simp [List.filterMap_cons, ih4]
    · rw [List.pairwise_cons]
      refine ⟨?_, ih5⟩
      intro x hx
      have := (ih6 x hx).1
      omega
    · intro x hx
      rcases List.mem_cons.mp hx with h | h
      · refine ⟨?_, (oid, none), by simp, ?_⟩ <;> simp [h, hoid]
      · obtain ⟨hge', r', hr', hle'⟩ := ih6 x h
        exact ⟨by omega, r', by simp [hr'], hle'⟩

theorem maxAssigned_all_none (rows : List (Nat × Option Nat))
    (h : ∀ r ∈ rows, r.2 = none) : maxAssigned rows = 0 := by
  unfold maxAssigned
  rw [List.filterMap_eq_nil_iff.mpr]
  · rfl
  · intro r hr
    simp [h r hr]

theorem migrate_premigration (s : ONState) (h : PreMigration s) :
    OrderNumberInv (migrate_backfill s).1 (migrate_backfill s).2 := by
  obtain ⟨h1, h2, h3⟩ := h
  have hge : ∀ r ∈ s.rows, 1 ≤ r.1 := fun r hr => (h3 r hr).1
  have hlt : ∀ r ∈ s.rows, r.1 < s.nextId := fun r hr => (h3 r hr).2
  obtain ⟨b1, b2, b3, b4, b5, b6⟩ := backfillGo_all_none s.rows 1 h1 h2 hge
  unfold migrate_backfill
  rw [maxAssigned_all_none s.rows h1]
  refine ⟨b2, b3, ?_, ?_, b5, ?_⟩
  · simpa [b4] using b5
  · intro r hr
    have hx1 : r.1 ∈ (backfillGo 0 1 s.rows).1.map Prod.fst :=
      List.mem_map_of_mem Prod.fst hr
    rw [b1] at hx1
    obtain ⟨z, hz, hz1⟩ := List.mem_map.mp hx1
    rw [← hz1]
    exact hlt z hz
  · intro x hx
    obtain ⟨_, r', hr', hle'⟩ := b6 x hx
    exact lt_of_le_of_lt hle' (hlt r' hr')

theorem migrate_inv (s : ONState) (log : List Nat)
    (h : OrderNumberInv s log) : migrate_backfill s = (s, []) := by
  unfold migrate_backfill
  rw [backfillGo_all_some (maxAssigned s.rows) s.rows 1]
  · intro r hr
    obtain ⟨n, hn, _⟩ := h.1 r hr
    simp [hn]

theorem runOrderOps_inv :
    ∀ (ops : List OrderOp) (s : ONState) (log : List Nat),
      OrderNumberInv s log →
      OrderNumberInv (runOrderOps (s, log) ops).1 (runOrderOps (s, log) ops).2 := by
  intro ops
  induction ops with
  | nil => intro s log h; exact h
  | cons op rest ih =>
    intro s log h
    cases op with
    | create =>
      exact ih (onCreate s) (log ++ [s.nextId]) (onCreate_inv s log h)
    | remove oid =>
      exact ih (onRemove s oid) log (onRemove_inv s log oid h)
    | migrate =>
      show OrderNumberInv (runOrderOps ((migrate_backfill s).1, log ++ (migrate_backfill s).2) rest).1
        (runOrderOps ((migrate_backfill s).1, log ++ (migrate_backfill s).2) rest).2
      rw [migrate_inv s log h]
      simpa using ih s log h

/-! ### Claim theorems -/

/-- C2: an order placement whose delivery date is a Monday
(`weekday() == 0`) is rejected by both creation handlers with the
"Segunda não há expediente" message, and the database — orders, product
stock and stock movements included — is left untouched. -/
theorem claim_C2_monday_rejected (db : DBS) (custId : Nat) (items : List (Nat × Int))
    (delivery : CivilDate) (status lbl : String) (notes : Option String)
    (today : CivilDate) (now : String)
    (hmon : pyWeekday delivery = 0) :
    ((orders_add db custId items delivery status lbl notes today now).1 = db ∧
     (∀ ids, (orders_add db custId items delivery status lbl notes today now).2 ≠ .created ids) ∧
     (items ≠ [] →
       (orders_add db custId items delivery status lbl notes today now).2 = .mondayRejected)) ∧
    ((customers_start_order db custId items delivery status lbl notes today now).1 = db ∧
     (∀ ids, (customers_start_order db custId items delivery status lbl notes today now).2 ≠ .created ids) ∧
     (items ≠ [] →
       (customers_start_order db custId items delivery status lbl notes today now).2 = .mondayRejected)) := by
  unfold orders_add customers_start_order
  cases h : items.isEmpty <;> simp_all [List.isEmpty_iff]

/-- C2 witness: a concrete Monday placement (2026-10-12) is rejected with
the database unchanged. -/
theorem claim_C2_witness :
    ((orders_add exampleDB 1 [(1, 3)] ⟨2026, 10, 12⟩ "Novo" "Comum" none
        ⟨2026, 10, 10⟩ "t").1 = exampleDB ∧
     (∀ ids, (orders_add exampleDB 1 [(1, 3)] ⟨2026, 10, 12⟩ "Novo" "Comum" none
        ⟨2026, 10, 10⟩ "t").2 ≠ .created ids) ∧
     ([((1 : Nat), (3 : Int))] ≠ [] →
       (orders_add exampleDB 1 [(1, 3)] ⟨2026, 10, 12⟩ "Novo" "Comum" none
          ⟨2026, 10, 10⟩ "t").2 = .mondayRejected)) ∧
    ((customers_start_order exampleDB 1 [(1, 3)] ⟨2026, 10, 12⟩ "Novo" "Comum" none
        ⟨2026, 10, 10⟩ "t").1 = exampleDB ∧
     (∀ ids, (customers_start_order exampleDB 1 [(1, 3)] ⟨2026, 10, 12⟩ "Novo" "Comum" none
        ⟨2026, 10, 10⟩ "t").2 ≠ .created ids) ∧
     ([((1 : Nat), (3 : Int))] ≠ [] →
       (customers_start_order exampleDB 1 [(1, 3)] ⟨2026, 10, 12⟩ "Novo" "Comum" none
          ⟨2026, 10, 10⟩ "t").2 = .mondayRejected)) :=
  claim_C2_monday_rejected exampleDB 1 [(1, 3)] ⟨2026, 10, 12⟩ "Novo" "Comum" none
    ⟨2026, 10, 10⟩ "t" (by decide)

/-- C3: an accepted single-product placement creates the order row with
`stock_reserved` set exactly when `delivery_date <= today`; in that case
the product's stock is decremented by the quantity and one 'saida'
movement is logged, otherwise stock and movements are untouched. -/
theorem claim_C3_reservation (db : DBS) (custId pid : Nat) (qty : Int)
    (delivery : CivilDate) (status lbl : String) (notes : Option String)
    (today : CivilDate) (now : String)
    (hmon : pyWeekday delivery ≠ 0) :
    (orders_add db custId [(pid, qty)] delivery status lbl notes today now).2 =
      .created [db.nextOrderId] ∧
    (orders_add db custId [(pid, qty)] delivery status lbl notes today now).1.orders =
      db.orders ++
        [{ id := db.nextOrderId, orderNumber := some db.nextOrderId,
           customerId := custId, productId := some pid, quantity := qty,
           deliveryDate := delivery, total := 0, status := status, label := lbl,
           notes := notes, stockReserved := dateLe delivery today,
           createdAt := now }] ∧
    (dateLe delivery today = true →
      stockOf (orders_add db custId [(pid, qty)] delivery status lbl notes today now).1.products pid =
        (stockOf db.products pid).map (fun s => s - qty) ∧
      (orders_add db custId [(pid, qty)] delivery status lbl notes today now).1.movements =
        db.movements ++ [mkMov pid .saida qty "Pedido" (some db.nextOrderId) now]) ∧
    (dateLe delivery today = false →
      (orders_add db custId [(pid, qty)] delivery status lbl notes today now).1.products =
        db.products ∧
      (orders_add db custId [(pid, qty)] delivery status lbl notes today now).1.movements =
        db.movements) := by
  unfold orders_add addOneOrder
  cases h : dateLe delivery today <;>
    simp_all [stockOf_bumpStock, sub_eq_add_neg]

/-- C3 witness: a same-day Tuesday order (2026-10-13) reserves stock; the
conclusions are checked on a one-product database. -/
theorem claim_C3_witness :
    (orders_add { exampleDB with
        products := [{ id := 1, name := "Bolo", description := none,
                       size := none, stock := 10, minStock := 0, price := 0 }] }
        1 [(1, 3)] ⟨2026, 10, 13⟩ "Novo" "Comum" none ⟨2026, 10, 13⟩ "t").2 =
      .created [1] ∧
    stockOf (orders_add { exampleDB with
        products := [{ id := 1, name := "Bolo", description := none,
                       size := none, stock := 10, minStock := 0, price := 0 }] }
        1 [(1, 3)] ⟨2026, 10, 13⟩ "Novo" "Comum" none ⟨2026, 10, 13⟩ "t").1.products 1 =
      some 7 := by
  have h := claim_C3_reservation { exampleDB with
      products := [{ id := 1, name := "Bolo", description := none,
                     size := none, stock := 10, minStock := 0, price := 0 }] }
    1 1 3 ⟨2026, 10, 13⟩ "Novo" "Comum" none ⟨2026, 10, 13⟩ "t" (by decide)
  refine ⟨h.1, ?_⟩
  have h3 := (h.2.2.1 (by decide)).1
  rw [h3]
  decide

/-- C4: deleting an order removes its stock movements, its pre-existing
audit rows (exactly one fresh delete record remains), and the order row
itself; an order with a product gets its quantity added back onto the
product's stock, while an order with no product changes no product row. -/
theorem claim_C4_delete_order (db : DBS) (oid : Nat) (user now : String) (o : Order)
    (ho : db.orders.find? (fun x => x.id == oid) = some o) :
    (orders_delete db oid user now).movements.filter
        (fun m => m.orderId == some oid) = [] ∧
    (orders_delete db oid user now).audits.filter
        (fun a => a.entity == "order" && a.entityId == some oid) =
      [auditRow "order" (some oid) "delete" user none now] ∧
    (∀ x ∈ (orders_delete db oid user now).orders, x.id ≠ oid) ∧
    (∀ pid, o.productId = some pid → o.stockReserved = true →
      stockOf (orders_delete db oid user now).products pid =
        (stockOf db.products pid).map (fun s => s + o.quantity)) ∧
    (o.productId = none → (orders_delete db oid user now).products = db.products) := by
  unfold orders_delete
  simp only [ho]
  refine ⟨?_, ?_, ?_, ?_, ?_⟩
  · cases o.productId <;>
    · simp only [List.filter_filter]
      apply List.filter_eq_nil_iff.mpr
      intro m _
      simp
  · cases o.productId <;>
    · simp only [List.filter_append, List.filter_filter]
      rw [List.filter_eq_nil_iff.mpr, List.nil_append]
      · simp [auditRow]
      · intro a _
        by_cases h1 : a.entity = "order" <;> by_cases h2 : a.entityId = some oid <;>
          simp [h1, h2]
  · intro x hx
    cases o.productId <;>
    · simp only [List.mem_filter] at hx
      simpa using hx.2
  · intro pid hpid _
    simp only [hpid, stockOf_bumpStock]
    cases stockOf db.products pid <;> simp
  · intro hpid
    simp [hpid]

/-- C4 witness: deleting a reserved one-product order on a concrete
database restores the stock from 7 to 10 and clears the dependent rows. -/
theorem claim_C4_witness :
    (orders_delete { exampleDB with
        products := [{ id := 1, name := "Bolo", description := none,
                       size := none, stock := 7, minStock := 0, price := 0 }],
        orders := [{ id := 1, orderNumber := some 1, customerId := 1,
                     productId := some 1, quantity := 3,
                     deliveryDate := ⟨2026, 10, 13⟩, total := 0,
                     status := "Novo", label := "Comum", notes := none,
                     stockReserved := true, createdAt := "t" }],
        movements := [mkMov 1 .saida 3 "Pedido" (some 1) "t"],
        nextOrderId := 2 } 1 "u" "t2").movements.filter
        (fun m => m.orderId == some 1) = [] ∧
    stockOf (orders_delete { exampleDB with
        products := [{ id := 1, name := "Bolo", description := none,
                       size := none, stock := 7, minStock := 0, price := 0 }],
        orders := [{ id := 1, orderNumber := some 1, customerId := 1,
                     productId := some 1, quantity := 3,
                     deliveryDate := ⟨2026, 10, 13⟩, total := 0,
                     status := "Novo", label := "Comum", notes := none,
                     stockReserved := true, createdAt := "t" }],
        movements := [mkMov 1 .saida 3 "Pedido" (some 1) "t"],
        nextOrderId := 2 } 1 "u" "t2").products 1 = some 10 := by
  have h := claim_C4_delete_order { exampleDB with
      products := [{ id := 1, name := "Bolo", description := none,
                     size := none, stock := 7, minStock := 0, price := 0 }],
      orders := [{ id := 1, orderNumber := some 1, customerId := 1,
                   productId := some 1, quantity := 3,
                   deliveryDate := ⟨2026, 10, 13⟩, total := 0,
                   status := "Novo", label := "Comum", notes := none,
                   stockReserved := true, createdAt := "t" }],
      movements := [mkMov 1 .saida 3 "Pedido" (some 1) "t"],
      nextOrderId := 2 } 1 "u" "t2"
    { id := 1, orderNumber := some 1, customerId := 1, productId := some 1,
      quantity := 3, deliveryDate := ⟨2026, 10, 13⟩, total := 0,
      status := "Novo", label := "Comum", notes := none,
      stockReserved := true, createdAt := "t" } (by decide)
  refine ⟨h.1, ?_⟩
  have h4 := h.2.2.2.1 1 rfl rfl
  rw [h4]
  decide

/-- C5: editing an order's quantity from Q1 to Q2 while keeping the same
product moves the product's stock to `stock - (Q2 - Q1)` — it decreases by
`Q2 - Q1` when Q2 > Q1 and increases when Q2 < Q1 — and inserts exactly one
compensating movement of quantity `|Q2 - Q1|` ('saida' if Q2 > Q1,
'entrada' if Q2 < Q1); when Q2 = Q1 neither stock nor movements change. -/
theorem claim_C5_edit_quantity (db : DBS) (oid custId pid : Nat) (q2 : Int)
    (delivery : CivilDate) (status lbl : String) (notes editDetails : Option String)
    (now : String) (o : Order)
    (ho : db.orders.find? (fun x => x.id == oid) = some o)
    (hpid : o.productId = some pid) :
    (orders_edit db oid custId pid q2 delivery status lbl notes editDetails now).2 =
      .edited ∧
    stockOf (orders_edit db oid custId pid q2 delivery status lbl notes editDetails now).1.products pid =
      (stockOf db.products pid).map (fun s => s - (q2 - o.quantity)) ∧
    (q2 ≠ o.quantity →
      (orders_edit db oid custId pid q2 delivery status lbl notes editDetails now).1.movements =
        db.movements ++
          [mkMov pid (if o.quantity < q2 then .saida else .entrada)
            |q2 - o.quantity| "Ajuste pedido" (some oid) now]) ∧
    (q2 = o.quantity →
      (orders_edit db oid custId pid q2 delivery status lbl notes editDetails now).1.movements =
        db.movements ∧
      (orders_edit db oid custId pid q2 delivery status lbl notes editDetails now).1.products =
        db.products) := by
  unfold orders_edit
  simp only [ho, hpid]
  by_cases hq : q2 = o.quantity
  · simp [hq, sub_self]
  · have hd : q2 - o.quantity ≠ 0 := sub_ne_zero_of_ne hq
    have hlt : (q2 - o.quantity > 0) = (o.quantity < q2) := by
      simp [sub_pos]
    simp_all [stockOf_bumpStock, sub_eq_add_neg]

/-- C5 witness: raising a concrete order's quantity from 3 to 5 drops the
product's stock from 7 to 5 and logs one 'saida' movement of 2. -/
theorem claim_C5_witness :
    stockOf (orders_edit { exampleDB with
        products := [{ id := 1, name := "Bolo", description := none,
                       size := none, stock := 7, minStock := 0, price := 0 }],
        orders := [{ id := 1, orderNumber := some 1, customerId := 1,
                     productId := some 1, quantity := 3,
                     deliveryDate := ⟨2026, 10, 13⟩, total := 0,
                     status := "Novo", label := "Comum", notes := none,
                     stockReserved := true, createdAt := "t" }],
        nextOrderId := 2 } 1 1 1 5 ⟨2026, 10, 13⟩ "Novo" "Comum" none none
        "t2").1.products 1 = some 5 ∧
    (orders_edit { exampleDB with
        products := [{ id := 1, name := "Bolo", description := none,
                       size := none, stock := 7, minStock := 0, price := 0 }],
        orders := [{ id := 1, orderNumber := some 1, customerId := 1,
                     productId := some 1, quantity := 3,
                     deliveryDate := ⟨2026, 10, 13⟩, total := 0,
                     status := "Novo", label := "Comum", notes := none,
                     stockReserved := true, createdAt := "t" }],
        nextOrderId := 2 } 1 1 1 5 ⟨2026, 10, 13⟩ "Novo" "Comum" none none
        "t2").1.movements = [mkMov 1 .saida 2 "Ajuste pedido" (some 1) "t2"] := by
  have h := claim_C5_edit_quantity { exampleDB with
      products := [{ id := 1, name := "Bolo", description := none,
                     size := none, stock := 7, minStock := 0, price := 0 }],
      orders := [{ id := 1, orderNumber := some 1, customerId := 1,
                   productId := some 1, quantity := 3,
                   deliveryDate := ⟨2026, 10, 13⟩, total := 0,
                   status := "Novo", label := "Comum", notes := none,
                   stockReserved := true, createdAt := "t" }],
      nextOrderId := 2 } 1 1 1 5 ⟨2026, 10, 13⟩ "Novo" "Comum" none none "t2"
    { id := 1, orderNumber := some 1, customerId := 1, productId := some 1,
      quantity := 3, deliveryDate := ⟨2026, 10, 13⟩, total := 0,
      status := "Novo", label := "Comum", notes := none,
      stockReserved := true, createdAt := "t" } (by decide) rfl
  constructor
  · rw [h.2.1]
    decide
  · rw [h.2.2.1 (by decide)]
    decide

/-- C6: deleting a product that some order still references is refused
with the whole database unchanged; with no referencing order, the product
row and its dependent stock movements and production items are removed
(orders are untouched both ways). -/
theorem claim_C6_delete_product_blocked (db : DBS) (pid : Nat) (user now : String) :
    ((∃ o ∈ db.orders, o.productId = some pid) →
      (products_delete db pid user now).2 = .blocked ∧
      (products_delete db pid user now).1 = db) ∧
    ((∀ o ∈ db.orders, o.productId ≠ some pid) →
      (products_delete db pid user now).2 = .deleted ∧
      (∀ p ∈ (products_delete db pid user now).1.products, p.id ≠ pid) ∧
      (∀ m ∈ (products_delete db pid user now).1.movements, m.productId ≠ pid) ∧
      (∀ i ∈ (products_delete db pid user now).1.productionItems, i.productId ≠ pid) ∧
      (products_delete db pid user now).1.products =
        db.products.filter (fun p => p.id ≠ pid) ∧
      (products_delete db pid user now).1.movements =
        db.movements.filter (fun m => m.productId ≠ pid) ∧
      (products_delete db pid user now).1.productionItems =
        db.productionItems.filter (fun i => i.productId ≠ pid) ∧
      (products_delete db pid user now).1.orders = db.orders) := by
  constructor
  · rintro ⟨o, ho, hpid⟩
    have hlen : 0 < (db.orders.filter (fun o => o.productId == some pid)).length := by
      apply List.length_pos.mpr
      intro hnil
      have := List.filter_eq_nil_iff.mp hnil o ho
      simp [hpid] at this
    unfold products_delete
    simp [hlen]
  · intro hall
    have hnil : db.orders.filter (fun o => o.productId == some pid) = [] := by
      apply List.filter_eq_nil_iff.mpr
      intro o ho
      simp [hall o ho]
    unfold products_delete
    simp only [hnil, List.length_nil, gt_iff_lt, lt_self_iff_false, if_false]
    refine ⟨trivial, ?_, ?_, ?_, trivial, trivial, trivial, trivial⟩
    · intro p hp
      simp only [List.mem_filter] at hp
      simpa using hp.2
    · intro m hm
      simp only [List.mem_filter] at hm
      simpa using hm.2
    · intro i hi
      simp only [List.mem_filter] at hi
      simpa using hi.2

/-- C6 witness: with one order referencing product 1 the deletion is
blocked and nothing changes; checked on a concrete database. -/
theorem claim_C6_witness :
    (products_delete { exampleDB with
        products := [{ id := 1, name := "Bolo", description := none,
                       size := none, stock := 7, minStock := 0, price := 0 }],
        orders := [{ id := 1, orderNumber := some 1, customerId := 1,
                     productId := some 1, quantity := 3,
                     deliveryDate := ⟨2026, 10, 13⟩, total := 0,
                     status := "Novo", label := "Comum", notes := none,
                     stockReserved := true, createdAt := "t" }],
        nextOrderId := 2 } 1 "u" "t").2 = .blocked ∧
    (products_delete { exampleDB with
        products := [{ id := 1, name := "Bolo", description := none,
                       size := none, stock := 7, minStock := 0, price := 0 }],
        orders := [{ id := 1, orderNumber := some 1, customerId := 1,
                     productId := some 1, quantity := 3,
                     deliveryDate := ⟨2026, 10, 13⟩, total := 0,
                     status := "Novo", label := "Comum", notes := none,
                     stockReserved := true, createdAt := "t" }],
        nextOrderId := 2 } 1 "u" "t").1 = { exampleDB with
        products := [{ id := 1, name := "Bolo", description := none,
                       size := none, stock := 7, minStock := 0, price := 0 }],
        orders := [{ id := 1, orderNumber := some 1, customerId := 1,
                     productId := some 1, quantity := 3,
                     deliveryDate := ⟨2026, 10, 13⟩, total := 0,
                     status := "Novo", label := "Comum", notes := none,
                     stockReserved := true, createdAt := "t" }],
        nextOrderId := 2 } :=
  (claim_C6_delete_product_blocked _ 1 "u" "t").1
    ⟨{ id := 1, orderNumber := some 1, customerId := 1, productId := some 1,
       quantity := 3, deliveryDate := ⟨2026, 10, 13⟩, total := 0,
       status := "Novo", label := "Comum", notes := none,
       stockReserved := true, createdAt := "t" }, by decide, rfl⟩

/-- C7 (amended): a product creation whose size field holds N >= 2
comma-separated non-empty values inserts exactly N product rows, the i-th
named `"<base> <size_i>cm"` carrying that single size, and appends one
initial 'entrada' movement (reason 'Cadastro inicial') per row exactly
when the initial stock is positive; with a single size value the handler
takes the other branch and keeps the base name (see the counterexample). -/
theorem claim_C7_multi_size (db : DBS) (name : String) (desc : Option String)
    (size : Option String) (stock minStock : Nat) (price : Int) (user now : String)
    (hname : name ≠ "") (h2 : 2 ≤ (splitSizes size).length) :
    (products_add db name desc size stock minStock price user now).2 =
      .multi (splitSizes size).length ∧
    (products_add db name desc size stock minStock price user now).1.products =
      db.products ++
        sizedRows name desc stock minStock price db.nextProductId (splitSizes size) ∧
    (products_add db name desc size stock minStock price user now).1.products.length =
      db.products.length + (splitSizes size).length ∧
    (0 < stock →
      (products_add db name desc size stock minStock price user now).1.movements =
        db.movements ++ sizedMovs now stock db.nextProductId (splitSizes size)) ∧
    (stock = 0 →
      (products_add db name desc size stock minStock price user now).1.movements =
        db.movements) := by
  have hgt : (splitSizes size).length > 1 := h2
  unfold products_add
  simp only [hname, if_false, hgt, if_true, if_pos]
  obtain ⟨h1, h2', h3, h4, h5⟩ :=
    foldl_addOneSizedProduct name desc stock minStock price user now (splitSizes size) db
  refine ⟨by simp [hgt], ?_, ?_, ?_, ?_⟩
  · simpa [hgt] using h1
  · simp [hgt, h1, sizedRows_length]
  · intro hs
    simp [hgt, h2', hs]
  · intro hs
    subst hs
    rw [h2']
    simp

/-- C7 counterexample: with the single size value "10" (a comma-separated
list of N = 1 non-empty values) the inserted row keeps the base name
"Bolo" instead of the claimed `"<base> <size>cm"` = "Bolo 10cm". -/
theorem claim_C7_counterexample :
    (splitSizes (some "10")).length = 1 ∧
    (products_add exampleDB "Bolo" none (some "10") 5 0 0 "u" "t").1.products.map
        Product.name = ["Bolo"] ∧
    "Bolo" ≠ "Bolo 10cm" := by
  refine ⟨by decide, by decide, by decide⟩

/-- C7 witness: creating "Torta" with sizes "10, 20" and stock 5 on the
empty database. -/
theorem claim_C7_witness :
    (products_add exampleDB "Torta" none (some "10, 20") 5 0 0 "u" "t").2 =
      .multi (splitSizes (some "10, 20")).length ∧
    (products_add exampleDB "Torta" none (some "10, 20") 5 0 0 "u" "t").1.products =
      exampleDB.products ++
        sizedRows "Torta" none 5 0 0 exampleDB.nextProductId
          (splitSizes (some "10, 20")) ∧
    (products_add exampleDB "Torta" none (some "10, 20") 5 0 0 "u" "t").1.products.length =
      exampleDB.products.length + (splitSizes (some "10, 20")).length ∧
    (0 < 5 →
      (products_add exampleDB "Torta" none (some "10, 20") 5 0 0 "u" "t").1.movements =
        exampleDB.movements ++
          sizedMovs "t" 5 exampleDB.nextProductId (splitSizes (some "10, 20"))) ∧
    (5 = 0 →
      (products_add exampleDB "Torta" none (some "10, 20") 5 0 0 "u" "t").1.movements =
        exampleDB.movements) :=
  claim_C7_multi_size exampleDB "Torta" none (some "10, 20") 5 0 0 "u" "t"
    (by decide) (by decide)

/-- C10: for an existing product, `POST /api/products/(id)/adjust` stores
`max(0, stock + change)` — never a negative value. -/
theorem claim_C10_adjust (db : DBS) (pid : Nat) (change : Int) (p : Product)
    (hp : findProduct db.products pid = some p) :
    (adjust_product db pid change).2 = .ok (max 0 (p.stock + change)) ∧
    stockOf (adjust_product db pid change).1.products pid =
      some (max 0 (p.stock + change)) ∧
    (0 : Int) ≤ max 0 (p.stock + change) := by
  unfold adjust_product
  rw [hp]
  refine ⟨rfl, ?_, le_max_left _ _⟩
  simp only [stockOf_setStock]
  unfold stockOf
  rw [hp]
  simp

/-- C10 witness: adjusting a stock of 10 by -15 through the endpoint
clamps to 0. -/
theorem claim_C10_witness :
    (adjust_product { exampleDB with
        products := [{ id := 1, name := "Bolo", description := none,
                       size := none, stock := 10, minStock := 0, price := 0 }] }
        1 (-15)).2 = .ok (max 0 ((10 : Int) + (-15))) ∧
    stockOf (adjust_product { exampleDB with
        products := [{ id := 1, name := "Bolo", description := none,
                       size := none, stock := 10, minStock := 0, price := 0 }] }
        1 (-15)).1.products 1 = some (max 0 ((10 : Int) + (-15))) ∧
    (0 : Int) ≤ max 0 ((10 : Int) + (-15)) :=
  claim_C10_adjust _ 1 (-15)
    { id := 1, name := "Bolo", description := none, size := none,
      stock := 10, minStock := 0, price := 0 } (by decide)

/-- C8 counterexample: with the bcrypt module unavailable and a stored
bcrypt-format hash, a password that matches the stored hash (bcrypt
verification succeeds) is still rejected — the handler falls back to a
SHA-256 comparison against the bcrypt string, which cannot match. -/
theorem claim_C8_counterexample :
    hashMatches counterexampleAuthEnv "pw" "$2b$12$hash" = true ∧
    (counterexampleUsers.find? (fun v => v.username == "admin")).map
        UserRow.passwordHash = some "$2b$12$hash" ∧
    (authenticate counterexampleAuthEnv counterexampleUsers "admin" "pw").1 = none := by
  refine ⟨rfl, rfl, rfl⟩

/-- C8 (amended): provided bcrypt is available whenever the stored hash is
a bcrypt hash, `authenticate` returns the user record exactly when the
supplied password matches the stored hash (bcrypt check for `$2...`
hashes, SHA-256 digest comparison otherwise), returns none and leaves the
table unchanged on a mismatch, and upgrades a matching SHA-256 hash to
bcrypt when bcrypt is available. -/
theorem claim_C8_authenticate (env : AuthEnv) (users : List UserRow)
    (username password : String) (u : UserRow)
    (hu : users.find? (fun v => v.username == username) = some u)
    (hne : u.passwordHash ≠ "")
    (havail : isBcryptHash u.passwordHash = true → env.bcryptAvailable = true) :
    ((authenticate env users username password).1 =
        some { id := u.id, username := u.username,
               passwordHash := u.passwordHash, role := u.role } ↔
      hashMatches env password u.passwordHash = true) ∧
    (hashMatches env password u.passwordHash = false →
      (authenticate env users username password).1 = none ∧
      (authenticate env users username password).2 = users) ∧
    (isBcryptHash u.passwordHash = false →
      env.sha256 password = u.passwordHash →
      env.bcryptAvailable = true →
      (authenticate env users username password).2 =
        users.map (fun v =>
          if v.id == u.id then { v with passwordHash := env.hashpw password }
          else v)) := by
  unfold authenticate hashMatches
  simp only [hu]
  by_cases hb : isBcryptHash u.passwordHash
  · have ha := havail hb
    simp only [hb, ha, hne, if_neg, if_true, Bool.true_and, if_pos]
    cases hc : env.checkpw password u.passwordHash <;> simp [hne, hc]
  · simp only [hb, Bool.and_false, if_false]
    by_cases hsha : env.sha256 password = u.passwordHash
    · cases hav : env.bcryptAvailable <;> simp [hne, hb, hsha, hav]
    · simp [hne, hb, hsha]

/-- C8 witness: a legacy SHA-256 user logging in with the right password
in an environment where bcrypt is available. -/
theorem claim_C8_witness :
    ((authenticate witnessAuthEnv witnessUsers "admin" "pw").1 =
        some { id := 1, username := "admin", passwordHash := "sha256:pw",
               role := "admin" } ↔
      hashMatches witnessAuthEnv "pw" "sha256:pw" = true) ∧
    (hashMatches witnessAuthEnv "pw" "sha256:pw" = false →
      (authenticate witnessAuthEnv witnessUsers "admin" "pw").1 = none ∧
      (authenticate witnessAuthEnv witnessUsers "admin" "pw").2 = witnessUsers) ∧
    (isBcryptHash "sha256:pw" = false →
      witnessAuthEnv.sha256 "pw" = "sha256:pw" →
      witnessAuthEnv.bcryptAvailable = true →
      (authenticate witnessAuthEnv witnessUsers "admin" "pw").2 =
        witnessUsers.map (fun v =>
          if v.id == 1 then { v with passwordHash := witnessAuthEnv.hashpw "pw" }
          else v)) :=
  claim_C8_authenticate witnessAuthEnv witnessUsers "admin" "pw"
    { id := 1, username := "admin", passwordHash := "sha256:pw", role := "admin" }
    rfl (by decide) (by decide)

/-- C1: `POST /api/production/complete` on a non-empty production list
whose items all reference existing products: on success every product's
stock grows by the total pending quantity for it, exactly one 'entrada'
movement (reason 'Produção concluída') is inserted per production item,
and the production list is emptied; if any statement fails (modelled by
the fault oracle `fails`) the handler answers with an error and the
committed database is unchanged — all-or-nothing, because the single
`conn.commit()` sits after every write.  With no fault the handler
succeeds. -/
theorem claim_C1_complete_production (db : DBS) (now : String) (fails : Nat → Bool)
    (hwf : ∀ it ∈ db.productionItems, (findProduct db.products it.productId).isSome)
    (hne : db.productionItems ≠ []) :
    ((complete_production db now fails).2 = .errEmpty ∨
       (complete_production db now fails).2 = .errException →
      (complete_production db now fails).1 = db) ∧
    (∀ n q, (complete_production db now fails).2 = .ok n q →
      n = db.productionItems.length ∧
      (complete_production db now fails).1.productionItems = [] ∧
      (∀ pid, stockOf (complete_production db now fails).1.products pid =
        (stockOf db.products pid).map
          (fun s => s + producedQty db.productionItems pid)) ∧
      (complete_production db now fails).1.movements =
        db.movements ++ db.productionItems.map (fun it =>
          mkMov it.productId .entrada it.quantity "Produção concluída" none now) ∧
      (complete_production db now fails).1.orders = db.orders ∧
      (complete_production db now fails).1.audits = db.audits ∧
      (complete_production db now fails).1.users = db.users) ∧
    ((∀ k, fails k = false) →
      ∃ n q, (complete_production db now fails).2 = .ok n q) := by
  have hjoin := joinItems_map_fst db hwf
  by_cases h0 : fails 0
  · have hr : complete_production db now fails = (db, .errException) := by
      unfold complete_production
      simp [h0]
    rw [hr]
    refine ⟨fun _ => rfl, ?_, ?_⟩
    · intro n q hq
      simp at hq
    · intro hf
      rw [hf 0] at h0
      simp at h0
  · have hne' : (joinItems db).isEmpty = false := by
      cases hj : joinItems db with
      | nil =>
        exfalso
        apply hne
        rw [← hjoin, hj]
        rfl
      | cons a l => rfl
    cases hcp : cpLoop now fails (joinItems db) 1 db with
    | none =>
      have hr : complete_production db now fails = (db, .errException) := by
        unfold complete_production
        simp [h0, hne', hcp]
      rw [hr]
      refine ⟨fun _ => rfl, ?_, ?_⟩
      · intro n q hq
        simp at hq
      · intro hf
        obtain ⟨w, k', h⟩ := cpLoop_nofault now fails hf (joinItems db) 1 db
        rw [hcp] at h
        cases h
    | some wk =>
      obtain ⟨work, k⟩ := wk
      by_cases hk : fails k
      · have hr : complete_production db now fails = (db, .errException) := by
          unfold complete_production
          simp [h0, hne', hcp, hk]
        rw [hr]
        refine ⟨fun _ => rfl, ?_, ?_⟩
        · intro n q hq
          simp at hq
        · intro hf
          rw [hf k] at hk
          simp at hk
      · by_cases hk1 : fails (k + 1)
        · have hr : complete_production db now fails = (db, .errException) := by
            unfold complete_production
            simp [h0, hne', hcp, hk, hk1]
          rw [hr]
          refine ⟨fun _ => rfl, ?_, ?_⟩
          · intro n q hq
            simp at hq
          · intro hf
            rw [hf (k + 1)] at hk1
            simp at hk1
        · have hr : complete_production db now fails =
              ({ work with productionItems := [] },
                .ok (joinItems db).length
                  (((joinItems db).map (fun ip => ip.1.quantity)).foldl (· + ·) 0)) := by
            unfold complete_production
            simp [h0, hne', hcp, hk, hk1]
          rw [hr]
          obtain ⟨hp, hm, hpi, ho, ha, hu, _, _⟩ :=
            cpLoop_ok now fails (joinItems db) 1 db work k hcp
          refine ⟨?_, ?_, ?_⟩
          · intro h
            rcases h with h | h <;> simp at h
          · intro n q hq
            simp only [CompleteResult.ok.injEq] at hq
            refine ⟨?_, rfl, ?_, ?_, by simpa using ho, by simpa using ha,
              by simpa using hu⟩
            · rw [← hq.1, ← hjoin, List.length_map]
            · intro pid
              have hp' : work.products =
                  db.productionItems.foldl
                    (fun acc it => bumpStock acc it.productId it.quantity)
                    db.products := by
                rw [hp, ← hjoin, List.foldl_map]
              simpa using (hp' ▸ stockOf_bumpFold db.productionItems db.products pid)
            · have hm' : work.movements = db.movements ++
                  db.productionItems.map (fun it =>
                    mkMov it.productId .entrada it.quantity "Produção concluída" none now) := by
                rw [hm, ← hjoin, List.map_map]
                rfl
              simpa using hm'
          · intro _
            exact ⟨_, _, rfl⟩

/-- C9: starting from any pre-migration orders table (all `order_number`
NULL) and running the startup backfill followed by any sequence of order
creations, deletions and re-migrations: the ghost log of assigned numbers
is strictly increasing in assignment order (every order numbered later —
backfilled rows included — gets a strictly larger number), every surviving
row is numbered, numbers grow strictly along the table's creation order,
and they are pairwise distinct. -/
theorem claim_C9_order_numbers (s0 : ONState) (ops : List OrderOp)
    (h : PreMigration s0) :
    List.Pairwise (· < ·) (runOrderOps (s0, []) (OrderOp.migrate :: ops)).2 ∧
    (∀ row ∈ (runOrderOps (s0, []) (OrderOp.migrate :: ops)).1.rows, row.2.isSome) ∧
    List.Pairwise (fun a b => ∀ na ∈ a.2, ∀ nb ∈ b.2, na < nb)
      (runOrderOps (s0, []) (OrderOp.migrate :: ops)).1.rows ∧
    ((runOrderOps (s0, []) (OrderOp.migrate :: ops)).1.rows.filterMap Prod.snd).Nodup := by
  have hstep : runOrderOps (s0, []) (OrderOp.migrate :: ops) =
      runOrderOps ((migrate_backfill s0).1, [] ++ (migrate_backfill s0).2) ops := rfl
  have hinv0 := migrate_premigration s0 h
  have hinv := runOrderOps_inv ops (migrate_backfill s0).1 (migrate_backfill s0).2 hinv0
  rw [hstep]
  simp only [List.nil_append]
  obtain ⟨i1, i2, i3, i4, i5, i6⟩ := hinv
  refine ⟨i5, ?_, ?_, ?_⟩
  · intro row hr
    obtain ⟨n, hn, _⟩ := i1 row hr
    simp [hn]
  · exact List.pairwise_filterMap.mp i3
  · exact i3.imp ne_of_lt

/-- C9 witness -/
theorem claim_C9_witness :
    List.Pairwise (· < ·)
      (runOrderOps (⟨[(1, none), (2, none)], 3⟩, [])
        (OrderOp.migrate :: [OrderOp.create, OrderOp.remove 1, OrderOp.create,
          OrderOp.migrate])).2 ∧
    (∀ row ∈ (runOrderOps (⟨[(1, none), (2, none)], 3⟩, [])
        (OrderOp.migrate :: [OrderOp.create, OrderOp.remove 1, OrderOp.create,
          OrderOp.migrate])).1.rows, row.2.isSome) ∧
    List.Pairwise (fun a b => ∀ na ∈ a.2, ∀ nb ∈ b.2, na < nb)
      (runOrderOps (⟨[(1, none), (2, none)], 3⟩, [])
        (OrderOp.migrate :: [OrderOp.create, OrderOp.remove 1, OrderOp.create,
          OrderOp.migrate])).1.rows ∧
    ((runOrderOps (⟨[(1, none), (2, none)], 3⟩, [])
        (OrderOp.migrate :: [OrderOp.create, OrderOp.remove 1, OrderOp.create,
          OrderOp.migrate])).1.rows.filterMap Prod.snd).Nodup :=
  claim_C9_order_numbers ⟨[(1, none), (2, none)], 3⟩
    [OrderOp.create, OrderOp.remove 1, OrderOp.create, OrderOp.migrate]
    (by refine ⟨by decide, by decide, by decide⟩)

/-- C1 witness: completing a one-item production list (quantity 4) on a
concrete database with no fault injected. -/
theorem claim_C1_witness :
    ((complete_production { exampleDB with
        products := [{ id := 1, name := "Bolo", description := none,
                       size := none, stock := 10, minStock := 0, price := 0 }],
        productionItems := [{ id := 1, productId := 1, quantity := 4,
                              size := none, notes := none, createdAt := "t" }] }
        "n" (fun _ => false)).2 = .errEmpty ∨
       (complete_production { exampleDB with
        products := [{ id := 1, name := "Bolo", description := none,
                       size := none, stock := 10, minStock := 0, price := 0 }],
        productionItems := [{ id := 1, productId := 1, quantity := 4,
                              size := none, notes := none, createdAt := "t" }] }
        "n" (fun _ => false)).2 = .errException →
      (complete_production { exampleDB with
        products := [{ id := 1, name := "Bolo", description := none,
                       size := none, stock := 10, minStock := 0, price := 0 }],
        productionItems := [{ id := 1, productId := 1, quantity := 4,
                              size := none, notes := none, createdAt := "t" }] }
        "n" (fun _ => false)).1 = { exampleDB with
        products := [{ id := 1, name := "Bolo", description := none,
                       size := none, stock := 10, minStock := 0, price := 0 }],
        productionItems := [{ id := 1, productId := 1, quantity := 4,
                              size := none, notes := none, createdAt := "t" }] }) ∧
    (∀ n q, (complete_production { exampleDB with
        products := [{ id := 1, name := "Bolo", description := none,
                       size := none, stock := 10, minStock := 0, price := 0 }],
        productionItems := [{ id := 1, productId := 1, quantity := 4,
                              size := none, notes := none, createdAt := "t" }] }
        "n" (fun _ => false)).2 = .ok n q →
      n = ({ exampleDB with
        products := [{ id := 1, name := "Bolo", description := none,
                       size := none, stock := 10, minStock := 0, price := 0 }],
        productionItems := [{ id := 1, productId := 1, quantity := 4,
                              size := none, notes := none, createdAt := "t" }] } : DBS).productionItems.length ∧
      (complete_production { exampleDB with
        products := [{ id := 1, name := "Bolo", description := none,
                       size := none, stock := 10, minStock := 0, price := 0 }],
        productionItems := [{ id := 1, productId := 1, quantity := 4,
                              size := none, notes := none, createdAt := "t" }] }
        "n" (fun _ => false)).1.productionItems = [] ∧
      (∀ pid, stockOf (complete_production { exampleDB with
        products := [{ id := 1, name := "Bolo", description := none,
                       size := none, stock := 10, minStock := 0, price := 0 }],
        productionItems := [{ id := 1, productId := 1, quantity := 4,
                              size := none, notes := none, createdAt := "t" }] }
        "n" (fun _ => false)).1.products pid =
        (stockOf ({ exampleDB with
        products := [{ id := 1, name := "Bolo", description := none,
                       size := none, stock := 10, minStock := 0, price := 0 }],
        productionItems := [{ id := 1, productId := 1, quantity := 4,
                              size := none, notes := none, createdAt := "t" }] } : DBS).products pid).map
          (fun s => s + producedQty ({ exampleDB with
        products := [{ id := 1, name := "Bolo", description := none,
                       size := none, stock := 10, minStock := 0, price := 0 }],
        productionItems := [{ id := 1, productId := 1, quantity := 4,
                              size := none, notes := none, createdAt := "t" }] } : DBS).productionItems pid)) ∧
      (complete_production { exampleDB with
        products := [{ id := 1, name := "Bolo", description := none,
                       size := none, stock := 10, minStock := 0, price := 0 }],
        productionItems := [{ id := 1, productId := 1, quantity := 4,
                              size := none, notes := none, createdAt := "t" }] }
        "n" (fun _ => false)).1.movements =
        ({ exampleDB with
        products := [{ id := 1, name := "Bolo", description := none,
                       size := none, stock := 10, minStock := 0, price := 0 }],
        productionItems := [{ id := 1, productId := 1, quantity := 4,
                              size := none, notes := none, createdAt := "t" }] } : DBS).movements ++
          ({ exampleDB with
        products := [{ id := 1, name := "Bolo", description := none,
                       size := none, stock := 10, minStock := 0, price := 0 }],
        productionItems := [{ id := 1, productId := 1, quantity := 4,
                              size := none, notes := none, createdAt := "t" }] } : DBS).productionItems.map (fun it =>
          mkMov it.productId .entrada it.quantity "Produção concluída" none "n") ∧
      (complete_production { exampleDB with
        products := [{ id := 1, name := "Bolo", description := none,
                       size := none, stock := 10, minStock := 0, price := 0 }],
        productionItems := [{ id := 1, productId := 1, quantity := 4,
                              size := none, notes := none, createdAt := "t" }] }
        "n" (fun _ => false)).1.orders = ({ exampleDB with
        products := [{ id := 1, name := "Bolo", description := none,
                       size := none, stock := 10, minStock := 0, price := 0 }],
        productionItems := [{ id := 1, productId := 1, quantity := 4,
                              size := none, notes := none, createdAt := "t" }] } : DBS).orders ∧
      (complete_production { exampleDB with
        products := [{ id := 1, name := "Bolo", description := none,
                       size := none, stock := 10, minStock := 0, price := 0 }],
        productionItems := [{ id := 1, productId := 1, quantity := 4,
                              size := none, notes := none, createdAt := "t" }] }
        "n" (fun _ => false)).1.audits = ({ exampleDB with
        products := [{ id := 1, name := "Bolo", description := none,
                       size := none, stock := 10, minStock := 0, price := 0 }],
        productionItems := [{ id := 1, productId := 1, quantity := 4,
                              size := none, notes := none, createdAt := "t" }] } : DBS).audits ∧
      (complete_production { exampleDB with
        products := [{ id := 1, name := "Bolo", description := none,
                       size := none, stock := 10, minStock := 0, price := 0 }],
        productionItems := [{ id := 1, productId := 1, quantity := 4,
                              size := none, notes := none, createdAt := "t" }] }
        "n" (fun _ => false)).1.users = ({ exampleDB with
        products := [{ id := 1, name := "Bolo", description := none,
                       size := none, stock := 10, minStock := 0, price := 0 }],
        productionItems := [{ id := 1, productId := 1, quantity := 4,
                              size := none, notes := none, createdAt := "t" }] } : DBS).users) ∧
    ((∀ k, (fun (_ : Nat) => false) k = false) →
      ∃ n q, (complete_production { exampleDB with
        products := [{ id := 1, name := "Bolo", description := none,
                       size := none, stock := 10, minStock := 0, price := 0 }],
        productionItems := [{ id := 1, productId := 1, quantity := 4,
                              size := none, notes := none, createdAt := "t" }] }
        "n" (fun _ => false)).2 = .ok n q) :=
  claim_C1_complete_production { exampleDB with
      products := [{ id := 1, name := "Bolo", description := none,
                     size := none, stock := 10, minStock := 0, price := 0 }],
      productionItems := [{ id := 1, productId := 1, quantity := 4,
                            size := none, notes := none, createdAt := "t" }] }
    "n" (fun _ => false) (by decide) (by decide)

end Gih
